import Mathlib

/-!
Verification of the Fox Creek golf-club core libraries: the WHS handicap
calculator (`src/lib/handicap.ts`) and the geofence trigger engine
(`src/lib/geo.ts`), shallowly embedded in Lean 4.  JavaScript numbers are
modelled as exact rationals; `Math.round` is floor of `x + 1/2`
(round-half-up, JavaScript semantics).
-/

namespace FoxCreek

/-- JavaScript `Math.round`: rounds half-way cases toward positive infinity. -/
def jsRound (x : ℚ) : ℤ := ⌊x + 1/2⌋

/-- Round to one decimal place, half up: `Math.round(x * 10) / 10`. -/
def round1 (x : ℚ) : ℚ := (jsRound (x * 10) : ℚ) / 10

/-- JavaScript `Math.min` on two rationals. -/
def jsMin (a b : ℚ) : ℚ := if a ≤ b then a else b

/-- JavaScript `Math.max` on two rationals. -/
def jsMax (a b : ℚ) : ℚ := if a ≤ b then b else a

/-! ## `src/lib/handicap.ts` -/

/-- Maximum handicap index per WHS rules (`MAX_HANDICAP_INDEX = 54.0`). -/
def MAX_HANDICAP_INDEX : ℚ := 54

/-- The `DIFFERENTIAL_SELECTION` record of `handicap.ts`: a partial map from
rounds played to (number of differentials to use, adjustment); JavaScript
record lookup on a missing key yields `undefined`, modelled as `none`. -/
def DIFFERENTIAL_SELECTION (n : ℕ) : Option (ℕ × ℚ) :=
  match n with
  | 3 => some (1, -2)
  | 4 => some (1, -1)
  | 5 => some (1, 0)
  | 6 => some (2, -1)
  | 7 => some (2, 0)
  | 8 => some (2, 0)
  | 9 => some (3, 0)
  | 10 => some (3, 0)
  | 11 => some (3, 0)
  | 12 => some (4, 0)
  | 13 => some (4, 0)
  | 14 => some (4, 0)
  | 15 => some (5, 0)
  | 16 => some (5, 0)
  | 17 => some (6, 0)
  | 18 => some (6, 0)
  | 19 => some (7, 0)
  | 20 => some (8, 0)
  | _ => none

/-- Insert a rational into an ascending list (helper for `sortAsc`). -/
def insertAsc (x : ℚ) : List ℚ → List ℚ
  | [] => [x]
  | y :: ys => if x ≤ y then x :: y :: ys else y :: insertAsc x ys

/-- Ascending numeric sort, the effect of
`[...differentials].sort((a, b) => a - b)` on a list of numbers. -/
def sortAsc : List ℚ → List ℚ
  | [] => []
  | x :: xs => insertAsc x (sortAsc xs)

/-- Source `calculateDifferential` of `handicap.ts`:
`(113 / slopeRating) * (adjustedScore - courseRating)` rounded to one
decimal.  The source performs no validation of `slopeRating`; in this
exact-rational embedding division by zero yields `0` where JavaScript would
yield `Infinity` — either way the function returns a value, it never
rejects. -/
def calculateDifferential (adjustedScore courseRating slopeRating : ℚ) : ℚ :=
  round1 ((113 / slopeRating) * (adjustedScore - courseRating))

/-- Source `calculateHandicapIndex` of `handicap.ts`, line for line: fewer than 3
differentials yields `null`; otherwise sort ascending, look up
`min(count, 20)` in `DIFFERENTIAL_SELECTION` (defaulting to `{count: 8,
adjustment: 0}`), average the lowest `count` entries, add the adjustment,
round to one decimal and clamp into `[0, 54]`. -/
def calculateHandicapIndex (differentials : List ℚ) : Option ℚ :=
  let count := differentials.length
  if count < 3 then
    none
  else
    let sorted := sortAsc differentials
    let roundsToUse := min count 20
    let selection := (DIFFERENTIAL_SELECTION roundsToUse).getD (8, 0)
    let bestDifferentials := sorted.take selection.1
    let average := bestDifferentials.sum / (selection.1 : ℚ)
    let handicapIndex := round1 (average + selection.2)
    some (jsMax 0 (jsMin MAX_HANDICAP_INDEX handicapIndex))

/-! ## Spec-side definitions for the handicap index

The specification describes `handicapIndex` in its own words; the following
definitions transcribe that description so it can be compared with
`calculateHandicapIndex` above. -/

/-- The WHS selection table exactly as the specification lists it
(`roundsPlayed → (count, adjustment)`), with the spec's stated default of
`K = 8, A = 0` for a count-used above 20. -/
def specSelectionTable (n : ℕ) : ℕ × ℚ :=
  match n with
  | 3 => (1, -2)
  | 4 => (1, -1)
  | 5 => (1, 0)
  | 6 => (2, -1)
  | 7 => (2, 0)
  | 8 => (2, 0)
  | 9 => (3, 0)
  | 10 => (3, 0)
  | 11 => (3, 0)
  | 12 => (4, 0)
  | 13 => (4, 0)
  | 14 => (4, 0)
  | 15 => (5, 0)
  | 16 => (5, 0)
  | 17 => (6, 0)
  | 18 => (6, 0)
  | 19 => (7, 0)
  | 20 => (8, 0)
  | _ => (8, 0)

/-- The handicap-index formula in the specification's words: look up
`(K, A)` keyed by the capped count, sort ascending, average the lowest `K`,
add `A`, round to one decimal (half up), clamp into `[0, 54]`. -/
def specHandicapIndex (l : List ℚ) : ℚ :=
  let sel := specSelectionTable (min l.length 20)
  let avg := ((sortAsc l).take sel.1).sum / (sel.1 : ℚ)
  jsMax 0 (jsMin 54 (round1 (avg + sel.2)))

/-! ## `src/lib/geo.ts`

`calculateDistance` in the source is the haversine formula over
floating-point `Math.sin`, `Math.cos`, `Math.atan2` and `Math.sqrt`; its
value is transcendental and is not representable exactly in a rational
embedding, so every definition below is parameterised by the distance
function `dist` standing for `calculateDistance`.  All verified properties
of the trigger engine hold for an arbitrary `dist`, hence in particular for
the haversine distance. -/

/-- The type of `calculateDistance`: `(lat1, lon1, lat2, lon2) ↦ meters`. -/
def DistanceFn : Type := ℚ → ℚ → ℚ → ℚ → ℚ

/-- Constant `METERS_PER_YARD = 0.9144` of `geo.ts`. -/
def METERS_PER_YARD : ℚ := 9144 / 10000

/-- Constant `YARDS_PER_METER = 1.09361` of `geo.ts`. -/
def YARDS_PER_METER : ℚ := 109361 / 100000

/-- Constant `TURN_HOLE = 8` of `geo.ts` (end of the front 9). -/
def TURN_HOLE : ℤ := 8

/-- Constant `TEE_TIME_ALERT_MINUTES = 5` of `geo.ts`. -/
def TEE_TIME_ALERT_MINUTES : ℤ := 5

/-- Zone category tag of `GeofenceZone.zone_type` (`src/types/index.ts`). -/
inductive ZoneType where
  | clubhouse
  | range
  | canteen
  | hole_green
  | hole_tee
deriving DecidableEq, BEq

/-- The `trigger_action` tag of a zone row (`src/types/index.ts`). -/
inductive TriggerAction where
  | check_in
  | tee_alert
  | fnb_prompt
  | auto_start
deriving DecidableEq, BEq

/-- The `GeofenceZone` record of `src/types/index.ts`. -/
structure GeofenceZone where
  id : String
  zone_name : String
  zone_type : ZoneType
  hole_number : Option ℤ
  latitude : ℚ
  longitude : ℚ
  radius_meters : ℚ
  trigger_action : Option TriggerAction
  is_active : Bool
  created_at : String
  updated_at : String
deriving DecidableEq

/-- The `GeofenceTrigger` tagged union of `src/types/index.ts`. -/
inductive GeofenceTrigger where
  | check_in (zone : GeofenceZone)
  | tee_alert (zone : GeofenceZone) (minutesUntilTeeTime : ℤ)
  | fnb_prompt (zone : GeofenceZone) (holeNumber : ℤ)
  | auto_start (zone : GeofenceZone)
  | none
deriving DecidableEq

/-- A latitude/longitude pair of the static course data. -/
structure Coordinates where
  lat : ℚ
  lng : ℚ
deriving DecidableEq

/-- A named circular region of the static course data. -/
structure LocalGeofence where
  name : String
  coords : Coordinates
  radiusMeters : ℚ
deriving DecidableEq

/-- A tee-box yardage entry of the static course data. -/
structure TeeBoxYardage where
  name : String
  yards : ℤ
deriving DecidableEq

/-- One hole of the static course data. -/
structure HoleData where
  holeNumber : ℤ
  par : ℤ
  handicapIndex : ℤ
  teeBoxes : List TeeBoxYardage
  teeBoxCoords : Coordinates
  greenCoords : Coordinates
deriving DecidableEq

/-- The parts of the static `CourseData` record read by the geofence
engine: the named fallback geofences and the per-hole data. -/
structure CourseData where
  name : String
  par : ℤ
  holes : ℤ
  geofences : List LocalGeofence
  holeData : List HoleData

/-- The shipped `FOX_CREEK_DATA` of `src/lib/admin-auth-store.ts`: the three
fallback geofences (placeholder centers) and the 18 holes, every one of
which has placeholder `(0,0)` tee-box and green coordinates. -/
def FOX_CREEK_DATA : CourseData where
  name := "Fox Creek Golf Club"
  par := 72
  holes := 18
  geofences := [
    { name := "Clubhouse", coords := ⟨46083/1000, -64683/1000⟩, radiusMeters := 50 },
    { name := "Practice Range", coords := ⟨46084/1000, -64682/1000⟩, radiusMeters := 100 },
    { name := "Canteen", coords := ⟨460835/10000, -64684/1000⟩, radiusMeters := 30 }]
  holeData := [
    { holeNumber := 1, par := 5, handicapIndex := 6,
      teeBoxes := [⟨"Black", 529⟩, ⟨"Blue", 498⟩, ⟨"White", 471⟩, ⟨"Green", 447⟩, ⟨"Red", 380⟩],
      teeBoxCoords := ⟨0, 0⟩, greenCoords := ⟨0, 0⟩ },
    { holeNumber := 2, par := 3, handicapIndex := 16,
      teeBoxes := [⟨"Black", 190⟩, ⟨"Blue", 165⟩, ⟨"White", 157⟩, ⟨"Green", 142⟩, ⟨"Red", 101⟩],
      teeBoxCoords := ⟨0, 0⟩, greenCoords := ⟨0, 0⟩ },
    { holeNumber := 3, par := 4, handicapIndex := 10,
      teeBoxes := [⟨"Black", 418⟩, ⟨"Blue", 393⟩, ⟨"White", 378⟩, ⟨"Green", 346⟩, ⟨"Red", 315⟩],
      teeBoxCoords := ⟨0, 0⟩, greenCoords := ⟨0, 0⟩ },
    { holeNumber := 4, par := 3, handicapIndex := 18,
      teeBoxes := [⟨"Black", 151⟩, ⟨"Blue", 134⟩, ⟨"White", 122⟩, ⟨"Green", 102⟩, ⟨"Red", 75⟩],
      teeBoxCoords := ⟨0, 0⟩, greenCoords := ⟨0, 0⟩ },
    { holeNumber := 5, par := 5, handicapIndex := 2,
      teeBoxes := [⟨"Black", 575⟩, ⟨"Blue", 541⟩, ⟨"White", 514⟩, ⟨"Green", 494⟩, ⟨"Red", 400⟩],
      teeBoxCoords := ⟨0, 0⟩, greenCoords := ⟨0, 0⟩ },
    { holeNumber := 6, par := 4, handicapIndex := 12,
      teeBoxes := [⟨"Black", 422⟩, ⟨"Blue", 396⟩, ⟨"White", 374⟩, ⟨"Green", 343⟩, ⟨"Red", 311⟩],
      teeBoxCoords := ⟨0, 0⟩, greenCoords := ⟨0, 0⟩ },
    { holeNumber := 7, par := 4, handicapIndex := 8,
      teeBoxes := [⟨"Black", 459⟩, ⟨"Blue", 430⟩, ⟨"White", 397⟩, ⟨"Green", 380⟩, ⟨"Red", 338⟩],
      teeBoxCoords := ⟨0, 0⟩, greenCoords := ⟨0, 0⟩ },
    { holeNumber := 8, par := 3, handicapIndex := 14,
      teeBoxes := [⟨"Black", 222⟩, ⟨"Blue", 198⟩, ⟨"White", 180⟩, ⟨"Green", 160⟩, ⟨"Red", 150⟩],
      teeBoxCoords := ⟨0, 0⟩, greenCoords := ⟨0, 0⟩ },
    { holeNumber := 9, par := 5, handicapIndex := 4,
      teeBoxes := [⟨"Black", 560⟩, ⟨"Blue", 523⟩, ⟨"White", 490⟩, ⟨"Green", 463⟩, ⟨"Red", 422⟩],
      teeBoxCoords := ⟨0, 0⟩, greenCoords := ⟨0, 0⟩ },
    { holeNumber := 10, par := 5, handicapIndex := 3,
      teeBoxes := [⟨"Black", 555⟩, ⟨"Blue", 532⟩, ⟨"White", 498⟩, ⟨"Green", 459⟩, ⟨"Red", 416⟩],
      teeBoxCoords := ⟨0, 0⟩, greenCoords := ⟨0, 0⟩ },
    { holeNumber := 11, par := 4, handicapIndex := 11,
      teeBoxes := [⟨"Black", 320⟩, ⟨"Blue", 293⟩, ⟨"White", 285⟩, ⟨"Green", 273⟩, ⟨"Red", 247⟩],
      teeBoxCoords := ⟨0, 0⟩, greenCoords := ⟨0, 0⟩ },
    { holeNumber := 12, par := 4, handicapIndex := 5,
      teeBoxes := [⟨"Black", 448⟩, ⟨"Blue", 421⟩, ⟨"White", 396⟩, ⟨"Green", 370⟩, ⟨"Red", 328⟩],
      teeBoxCoords := ⟨0, 0⟩, greenCoords := ⟨0, 0⟩ },
    { holeNumber := 13, par := 3, handicapIndex := 15,
      teeBoxes := [⟨"Black", 241⟩, ⟨"Blue", 212⟩, ⟨"White", 199⟩, ⟨"Green", 179⟩, ⟨"Red", 132⟩],
      teeBoxCoords := ⟨0, 0⟩, greenCoords := ⟨0, 0⟩ },
    { holeNumber := 14, par := 4, handicapIndex := 7,
      teeBoxes := [⟨"Black", 427⟩, ⟨"Blue", 401⟩, ⟨"White", 378⟩, ⟨"Green", 352⟩, ⟨"Red", 313⟩],
      teeBoxCoords := ⟨0, 0⟩, greenCoords := ⟨0, 0⟩ },
    { holeNumber := 15, par := 5, handicapIndex := 1,
      teeBoxes := [⟨"Black", 543⟩, ⟨"Blue", 509⟩, ⟨"White", 482⟩, ⟨"Green", 443⟩, ⟨"Red", 406⟩],
      teeBoxCoords := ⟨0, 0⟩, greenCoords := ⟨0, 0⟩ },
    { holeNumber := 16, par := 4, handicapIndex := 13,
      teeBoxes := [⟨"Black", 304⟩, ⟨"Blue", 273⟩, ⟨"White", 256⟩, ⟨"Green", 233⟩, ⟨"Red", 190⟩],
      teeBoxCoords := ⟨0, 0⟩, greenCoords := ⟨0, 0⟩ },
    { holeNumber := 17, par := 3, handicapIndex := 17,
      teeBoxes := [⟨"Black", 158⟩, ⟨"Blue", 131⟩, ⟨"White", 108⟩, ⟨"Green", 108⟩, ⟨"Red", 108⟩],
      teeBoxCoords := ⟨0, 0⟩, greenCoords := ⟨0, 0⟩ },
    { holeNumber := 18, par := 4, handicapIndex := 9,
      teeBoxes := [⟨"Black", 403⟩, ⟨"Blue", 378⟩, ⟨"White", 348⟩, ⟨"Green", 295⟩, ⟨"Red", 204⟩],
      teeBoxCoords := ⟨0, 0⟩, greenCoords := ⟨0, 0⟩ }]

/-- Source `getHoleByNumber` of `admin-auth-store.ts`:
`FOX_CREEK_DATA.holeData.find((h) => h.holeNumber === holeNumber)`. -/
def getHoleByNumber (holeNumber : ℤ) : Option HoleData :=
  FOX_CREEK_DATA.holeData.find? (fun h => h.holeNumber == holeNumber)

/-- Source `getDistanceToGreen` of `geo.ts`: `null` for an unknown hole or for a
placeholder `(0,0)` green coordinate, otherwise the haversine distance
converted to rounded integer yards. -/
def getDistanceToGreen (dist : DistanceFn) (userLat userLng : ℚ)
    (holeNumber : ℤ) : Option ℤ :=
  match getHoleByNumber holeNumber with
  | Option.none => Option.none
  | Option.some hole =>
    if hole.greenCoords.lat == 0 && hole.greenCoords.lng == 0 then
      Option.none
    else
      Option.some (jsRound (dist userLat userLng hole.greenCoords.lat hole.greenCoords.lng
        * YARDS_PER_METER))

/-- Source `isWithinGeofence` of `geo.ts`: distance from the user to the zone
center is at most the zone radius. -/
def isWithinGeofence (dist : DistanceFn) (userLat userLng : ℚ)
    (zone : GeofenceZone) : Bool :=
  decide (dist userLat userLng zone.latitude zone.longitude ≤ zone.radius_meters)

/-- Source `isWithinLocalGeofence` of `geo.ts`: case-insensitive lookup in the
static geofences, placeholder `(0,0)` centers treated as absent. -/
def isWithinLocalGeofence (dist : DistanceFn) (userLat userLng : ℚ)
    (geofenceName : String) : Bool :=
  match FOX_CREEK_DATA.geofences.find?
      (fun g => g.name.toLower == geofenceName.toLower) with
  | Option.none => false
  | Option.some geofence =>
    if geofence.coords.lat == 0 && geofence.coords.lng == 0 then
      false
    else
      decide (dist userLat userLng geofence.coords.lat geofence.coords.lng
        ≤ geofence.radiusMeters)

/-- Source `isNearGreen` of `geo.ts`: the rounded yard distance to the hole's
green exists and is at most the threshold. -/
def isNearGreen (dist : DistanceFn) (userLat userLng : ℚ)
    (holeNumber thresholdYards : ℤ) : Bool :=
  match getDistanceToGreen dist userLat userLng holeNumber with
  | Option.none => false
  | Option.some distanceYards => decide (distanceYards ≤ thresholdYards)

/-- Source `metersToYards` of `geo.ts`: `Math.round(meters * YARDS_PER_METER)`. -/
def metersToYards (meters : ℚ) : ℤ :=
  jsRound (meters * YARDS_PER_METER)

/-- Source `yardsToMeters` of `geo.ts`: `yards * METERS_PER_YARD`. -/
def yardsToMeters (yards : ℚ) : ℚ :=
  yards * METERS_PER_YARD

/-- The `settings` field of `GeofenceCheckParams` in `geo.ts`. -/
structure GeofenceSettings where
  enabled : Bool
  check_in_enabled : Bool
  tee_time_alerts : Bool
  turn_prompt_enabled : Bool
deriving DecidableEq

/-- Record `GeofenceCheckParams` of `geo.ts`.  `teeTime` is the epoch-millisecond
value of the `Date`, and `now` (the `new Date()` taken inside the source
function) is passed alongside the params in this embedding. -/
structure GeofenceCheckParams where
  userLat : ℚ
  userLng : ℚ
  teeTime : Option ℚ
  isCheckedIn : Bool
  isRoundInProgress : Bool
  currentHole : ℤ
  hasShownFnbPrompt : Bool
  zones : List GeofenceZone
  settings : GeofenceSettings

/-- Logic D of `checkGeofence`: auto-start at the hole-1 tee.  Requires a
remotely configured `hole_tee` zone for hole 1; there is no fallback. -/
def checkAutoStart (dist : DistanceFn) (p : GeofenceCheckParams) :
    Option GeofenceTrigger :=
  if p.isCheckedIn && !p.isRoundInProgress then
    match p.zones.find? (fun z => z.zone_type == ZoneType.hole_tee
        && z.hole_number == Option.some 1) with
    | Option.some hole1TeeZone =>
      if isWithinGeofence dist p.userLat p.userLng hole1TeeZone then
        Option.some (GeofenceTrigger.auto_start hole1TeeZone)
      else Option.none
    | Option.none => Option.none
  else Option.none

/-- The fallback part of Logic A: the built-in "Clubhouse" zone, used only
when the remote zone list is empty, returned as a synthesized record. -/
def checkInFallback (dist : DistanceFn) (p : GeofenceCheckParams) :
    Option GeofenceTrigger :=
  if p.zones.length == 0 && isWithinLocalGeofence dist p.userLat p.userLng "Clubhouse" then
    match FOX_CREEK_DATA.geofences.find? (fun g => g.name == "Clubhouse") with
    | Option.some localClubhouse =>
      Option.some (GeofenceTrigger.check_in
        { id := "local-clubhouse"
          zone_name := localClubhouse.name
          zone_type := ZoneType.clubhouse
          hole_number := Option.none
          latitude := localClubhouse.coords.lat
          longitude := localClubhouse.coords.lng
          radius_meters := localClubhouse.radiusMeters
          trigger_action := Option.some TriggerAction.check_in
          is_active := true
          created_at := ""
          updated_at := "" })
    | Option.none => Option.none
  else Option.none

/-- Logic A of `checkGeofence`: check-in at the clubhouse. -/
def checkCheckIn (dist : DistanceFn) (p : GeofenceCheckParams) :
    Option GeofenceTrigger :=
  if p.settings.check_in_enabled && !p.isCheckedIn then
    match p.zones.find? (fun z => z.zone_type == ZoneType.clubhouse) with
    | Option.some clubhouseZone =>
      if isWithinGeofence dist p.userLat p.userLng clubhouseZone then
        Option.some (GeofenceTrigger.check_in clubhouseZone)
      else checkInFallback dist p
    | Option.none => checkInFallback dist p
  else Option.none

/-- The fallback part of Logic B: the built-in "Practice Range" zone. -/
def teeAlertFallback (dist : DistanceFn) (p : GeofenceCheckParams)
    (minutesUntilTeeTime : ℤ) : Option GeofenceTrigger :=
  if p.zones.length == 0
      && isWithinLocalGeofence dist p.userLat p.userLng "Practice Range" then
    match FOX_CREEK_DATA.geofences.find? (fun g => g.name == "Practice Range") with
    | Option.some localRange =>
      Option.some (GeofenceTrigger.tee_alert
        { id := "local-range"
          zone_name := localRange.name
          zone_type := ZoneType.range
          hole_number := Option.none
          latitude := localRange.coords.lat
          longitude := localRange.coords.lng
          radius_meters := localRange.radiusMeters
          trigger_action := Option.some TriggerAction.tee_alert
          is_active := true
          created_at := ""
          updated_at := "" }
        minutesUntilTeeTime)
    | Option.none => Option.none
  else Option.none

/-- Logic B of `checkGeofence`: tee-time alert at the practice range.  The
whole-minute countdown is `Math.floor((teeTime - now) / (1000 * 60))`. -/
def checkTeeTimeAlert (dist : DistanceFn) (now : ℚ) (p : GeofenceCheckParams) :
    Option GeofenceTrigger :=
  if p.settings.tee_time_alerts then
    match p.teeTime with
    | Option.some teeTime =>
      let minutesUntilTeeTime : ℤ := ⌊(teeTime - now) / (1000 * 60)⌋
      if minutesUntilTeeTime ≤ TEE_TIME_ALERT_MINUTES ∧ minutesUntilTeeTime > 0 then
        match p.zones.find? (fun z => z.zone_type == ZoneType.range) with
        | Option.some rangeZone =>
          if isWithinGeofence dist p.userLat p.userLng rangeZone then
            Option.some (GeofenceTrigger.tee_alert rangeZone minutesUntilTeeTime)
          else teeAlertFallback dist p minutesUntilTeeTime
        | Option.none => teeAlertFallback dist p minutesUntilTeeTime
      else Option.none
    | Option.none => Option.none
  else Option.none

/-- The fallback part of Logic C: the static hole-8 green coordinate with a
30-yard threshold, synthesized as a 27 m zone. -/
def turnPromptFallback (dist : DistanceFn) (p : GeofenceCheckParams) :
    Option GeofenceTrigger :=
  if p.zones.length == 0 && isNearGreen dist p.userLat p.userLng TURN_HOLE 30 then
    match getHoleByNumber TURN_HOLE with
    | Option.some hole =>
      Option.some (GeofenceTrigger.fnb_prompt
        { id := "local-hole8-green"
          zone_name := "Hole " ++ toString TURN_HOLE ++ " Green"
          zone_type := ZoneType.hole_green
          hole_number := Option.some TURN_HOLE
          latitude := hole.greenCoords.lat
          longitude := hole.greenCoords.lng
          radius_meters := 27
          trigger_action := Option.some TriggerAction.fnb_prompt
          is_active := true
          created_at := ""
          updated_at := "" }
        TURN_HOLE)
    | Option.none => Option.none
  else Option.none

/-- Logic C of `checkGeofence`: the turn (food-and-beverage) prompt at the
hole-8 green, only while the current hole is in `[TURN_HOLE - 1, TURN_HOLE]`. -/
def checkTurnPrompt (dist : DistanceFn) (p : GeofenceCheckParams) :
    Option GeofenceTrigger :=
  if p.settings.turn_prompt_enabled && !p.hasShownFnbPrompt then
    if TURN_HOLE - 1 ≤ p.currentHole ∧ p.currentHole ≤ TURN_HOLE then
      match p.zones.find? (fun z => z.zone_type == ZoneType.hole_green
          && z.hole_number == Option.some TURN_HOLE) with
      | Option.some hole8GreenZone =>
        if isWithinGeofence dist p.userLat p.userLng hole8GreenZone then
          Option.some (GeofenceTrigger.fnb_prompt hole8GreenZone TURN_HOLE)
        else turnPromptFallback dist p
      | Option.none => turnPromptFallback dist p
    else Option.none
  else Option.none

/-- Source `checkGeofence` of `geo.ts`: the master kill switch followed by the
early-return chain Logic D, A, B, C, falling through to `none`. -/
def checkGeofence (dist : DistanceFn) (now : ℚ) (p : GeofenceCheckParams) :
    GeofenceTrigger :=
  if !p.settings.enabled then GeofenceTrigger.none
  else
    match checkAutoStart dist p with
    | Option.some t => t
    | Option.none =>
      match checkCheckIn dist p with
      | Option.some t => t
      | Option.none =>
        match checkTeeTimeAlert dist now p with
        | Option.some t => t
        | Option.none =>
          match checkTurnPrompt dist p with
          | Option.some t => t
          | Option.none => GeofenceTrigger.none

/-! ## Auxiliary definitions for the is-active observation

The trigger engine never reads `is_active`; to state that as a
hyperproperty, `setActive` rewrites every zone's flag and `eraseActive` /
`eraseTriggerActive` normalize the flag so results can be compared up to
it. -/

/-- Overwrite a zone's `is_active` flag with `f z`, leaving every other
field unchanged. -/
def setActive (f : GeofenceZone → Bool) (z : GeofenceZone) : GeofenceZone :=
  { z with is_active := f z }

/-- Normalize a zone's `is_active` flag to `true`. -/
def eraseActive (z : GeofenceZone) : GeofenceZone := { z with is_active := true }

/-- Normalize the `is_active` flag of the zone carried by a trigger. -/
def eraseTriggerActive : GeofenceTrigger → GeofenceTrigger
  | GeofenceTrigger.check_in z => GeofenceTrigger.check_in (eraseActive z)
  | GeofenceTrigger.tee_alert z m => GeofenceTrigger.tee_alert (eraseActive z) m
  | GeofenceTrigger.fnb_prompt z n => GeofenceTrigger.fnb_prompt (eraseActive z) n
  | GeofenceTrigger.auto_start z => GeofenceTrigger.auto_start (eraseActive z)
  | GeofenceTrigger.none => GeofenceTrigger.none

/-! ## Concrete inputs for the closed instances -/

/-- A distance function reporting 0 m everywhere: every zone contains
every point.  Used to build concrete evaluations of the trigger engine. -/
def distZero : DistanceFn := fun _ _ _ _ => 0

/-- Settings with every toggle on. -/
def baseSettings : GeofenceSettings where
  enabled := true
  check_in_enabled := true
  tee_time_alerts := true
  turn_prompt_enabled := true

/-- A remotely configured hole-1 tee zone, deliberately marked inactive. -/
def teeZoneW : GeofenceZone where
  id := "z-tee-1"
  zone_name := "Hole 1 Tee"
  zone_type := ZoneType.hole_tee
  hole_number := Option.some 1
  latitude := 46
  longitude := -64
  radius_meters := 20
  trigger_action := Option.some TriggerAction.auto_start
  is_active := false
  created_at := ""
  updated_at := ""

/-- A remotely configured clubhouse zone. -/
def clubhouseZoneW : GeofenceZone where
  id := "z-club"
  zone_name := "Clubhouse"
  zone_type := ZoneType.clubhouse
  hole_number := Option.none
  latitude := 46
  longitude := -64
  radius_meters := 50
  trigger_action := Option.some TriggerAction.check_in
  is_active := true
  created_at := ""
  updated_at := ""

/-- A remotely configured practice-range zone. -/
def rangeZoneW : GeofenceZone where
  id := "z-range"
  zone_name := "Practice Range"
  zone_type := ZoneType.range
  hole_number := Option.none
  latitude := 46
  longitude := -64
  radius_meters := 100
  trigger_action := Option.some TriggerAction.tee_alert
  is_active := true
  created_at := ""
  updated_at := ""

/-- A remotely configured hole-8 green zone. -/
def green8ZoneW : GeofenceZone where
  id := "z-green-8"
  zone_name := "Hole 8 Green"
  zone_type := ZoneType.hole_green
  hole_number := Option.some 8
  latitude := 46
  longitude := -64
  radius_meters := 27
  trigger_action := Option.some TriggerAction.fnb_prompt
  is_active := true
  created_at := ""
  updated_at := ""

/-- A checked-in player, round not yet started, standing inside both the
hole-1 tee zone and the clubhouse zone (under `distZero`). -/
def pAuto : GeofenceCheckParams where
  userLat := 46
  userLng := -64
  teeTime := Option.none
  isCheckedIn := true
  isRoundInProgress := false
  currentHole := 1
  hasShownFnbPrompt := true
  zones := [teeZoneW, clubhouseZoneW]
  settings := baseSettings

/-- A player on the course with a tee time `ms` epoch-milliseconds (the
evaluation takes `now = 0`), inside the practice-range zone. -/
def pTee (ms : ℚ) : GeofenceCheckParams where
  userLat := 46
  userLng := -64
  teeTime := Option.some ms
  isCheckedIn := true
  isRoundInProgress := true
  currentHole := 1
  hasShownFnbPrompt := true
  zones := [rangeZoneW]
  settings := baseSettings

/-- A player on hole 6 standing inside the configured hole-8 green zone,
turn prompt not yet shown. -/
def pHole6 : GeofenceCheckParams where
  userLat := 46
  userLng := -64
  teeTime := Option.none
  isCheckedIn := true
  isRoundInProgress := true
  currentHole := 6
  hasShownFnbPrompt := false
  zones := [green8ZoneW]
  settings := baseSettings

/-- A player on hole 8 with no remotely configured zones at all. -/
def pEmptyZones : GeofenceCheckParams where
  userLat := 0
  userLng := 0
  teeTime := Option.none
  isCheckedIn := true
  isRoundInProgress := true
  currentHole := 8
  hasShownFnbPrompt := false
  zones := []
  settings := baseSettings

/-! ## Handicap-calculator theorems -/

/-- The source's partial selection record with its `|| {count: 8,
adjustment: 0}` default agrees with the spec's total table at every key. -/
theorem selection_getD_eq (m : ℕ) :
    (DIFFERENTIAL_SELECTION m).getD (8, 0) = specSelectionTable m := by
  match m with
  | 0 | 1 | 2 | 3 | 4 | 5 | 6 | 7 | 8 | 9 | 10
  | 11 | 12 | 13 | 14 | 15 | 16 | 17 | 18 | 19 | 20 => rfl
  | n + 21 => rfl

/-- C3: `calculateHandicapIndex` returns `null` exactly when fewer than 3
differentials are supplied; any list of 3 or more yields a numeric index. -/
theorem calculateHandicapIndex_none_iff (l : List ℚ) :
    calculateHandicapIndex l = Option.none ↔ l.length < 3 := by
  by_cases h : l.length < 3 <;> simp [calculateHandicapIndex, h]

/-- Closed instances of `calculateHandicapIndex_none_iff` at concrete
inputs: the empty list and a 3-round list. -/
theorem calculateHandicapIndex_none_iff_witness :
    (calculateHandicapIndex [] = Option.none ↔ ([] : List ℚ).length < 3) ∧
    (calculateHandicapIndex [5, 6, 7] = Option.none ↔
      ([5, 6, 7] : List ℚ).length < 3) :=
  ⟨calculateHandicapIndex_none_iff [], calculateHandicapIndex_none_iff [5, 6, 7]⟩

/-- C2: for 3 to 20 differentials, `calculateHandicapIndex` computes
exactly the spec's formula — table lookup keyed by the count, average of
the lowest `K` plus adjustment `A`, rounded half-up to one decimal and
clamped into `[0, 54]` — and in particular maps `[5, 6, 7]` to `3.0`. -/
theorem calculateHandicapIndex_spec_table :
    (∀ l : List ℚ, 3 ≤ l.length → l.length ≤ 20 →
      calculateHandicapIndex l = Option.some (specHandicapIndex l)) ∧
    calculateHandicapIndex [5, 6, 7] = Option.some 3 := by
  constructor
  · intro l h3 _
    simp only [calculateHandicapIndex, specHandicapIndex]
    rw [if_neg (by omega), selection_getD_eq]
    rfl
  · with_unfolding_all decide

/-- Closed instance of `calculateHandicapIndex_spec_table` at a concrete
4-round input. -/
theorem calculateHandicapIndex_spec_table_witness :
    calculateHandicapIndex [10, 11, 12, 13] =
      Option.some (specHandicapIndex [10, 11, 12, 13]) :=
  calculateHandicapIndex_spec_table.1 [10, 11, 12, 13] (by decide) (by decide)

/-- C1 counterexample: entries past position 20 do change the result.  On
twenty differentials of 10.0 followed by a 0.0, the code returns 8.8 (the
0.0 is among the 8 lowest of the whole sorted list), while the first 20
entries alone give 10.0. -/
theorem calculateHandicapIndex_ignores_tail_false :
    ¬ (calculateHandicapIndex (List.replicate 20 (10 : ℚ) ++ [0]) =
        calculateHandicapIndex ((List.replicate 20 (10 : ℚ) ++ [0]).take 20)) := by
  with_unfolding_all decide

/-- C1 amended: for more than 20 differentials the selection parameters
are `K = 8, A = 0` (the table keyed at the capped count 20), but the 8
lowest are taken from the full sorted input — entries past position 20 are
not discarded and can affect the result. -/
theorem calculateHandicapIndex_over20 (l : List ℚ) (h : 20 < l.length) :
    calculateHandicapIndex l =
      Option.some (jsMax 0 (jsMin 54 (round1 (((sortAsc l).take 8).sum / 8)))) := by
  simp only [calculateHandicapIndex]
  rw [if_neg (by omega)]
  have hmin : min l.length 20 = 20 := by omega
  rw [hmin]
  norm_num [DIFFERENTIAL_SELECTION, MAX_HANDICAP_INDEX]

/-- Closed instance of `calculateHandicapIndex_over20` on a 21-element
list. -/
theorem calculateHandicapIndex_over20_witness :
    calculateHandicapIndex (List.replicate 21 (5 : ℚ)) =
      Option.some (jsMax 0 (jsMin 54
        (round1 (((sortAsc (List.replicate 21 (5 : ℚ))).take 8).sum / 8)))) :=
  calculateHandicapIndex_over20 _ (by decide)

/-- C7: `calculateDifferential` performs no slope validation and never
rejects: at slope 0 and at a negative slope it still returns a plain
number.  (Exact-rational division by zero is 0 here; the JavaScript source
returns `Infinity` at slope 0 — in both models no error is raised.) -/
theorem calculateDifferential_no_guard :
    calculateDifferential 100 72 0 = 0 ∧
    calculateDifferential 100 72 (-113) = -28 := by
  constructor <;> with_unfolding_all decide

/-! ## Unit-conversion theorems -/

/-- C8 amended: within `|x| ≤ 47347` m the round trip
`yardsToMeters(metersToYards(x))` differs from `x` by at most 0.6 m.  (The
code converts with the constant `1.09361`, not exactly `1/0.9144`, so the
discrepancy grows by about `3.016e-6` per meter and the bound fails for
large inputs; 47347 m is where the worst case reaches 0.6.) -/
theorem metersToYards_roundTrip (x : ℚ) (h1 : -47347 ≤ x) (h2 : x ≤ 47347) :
    -(6/10) ≤ yardsToMeters ((metersToYards x : ℤ) : ℚ) - x ∧
      yardsToMeters ((metersToYards x : ℤ) : ℚ) - x ≤ 6/10 := by
  have hle : ((⌊x * (109361/100000) + 1/2⌋ : ℤ) : ℚ) ≤ x * (109361/100000) + 1/2 :=
    Int.floor_le _
  have hgt : x * (109361/100000) + 1/2 < (⌊x * (109361/100000) + 1/2⌋ : ℤ) + 1 :=
    Int.lt_floor_add_one _
  simp only [yardsToMeters, metersToYards, jsRound, METERS_PER_YARD, YARDS_PER_METER]
  constructor <;> linarith

/-- C8 counterexample: at `x = 1,000,000` m the round trip lands 3.016 m
away from `x`, violating the claimed universal 0.6 m tolerance. -/
theorem metersToYards_roundTrip_false :
    ¬ (|yardsToMeters ((metersToYards 1000000 : ℤ) : ℚ) - 1000000| ≤ 6/10) := by
  have h : yardsToMeters ((metersToYards 1000000 : ℤ) : ℚ) - 1000000 = -(3016/1000) := by
    with_unfolding_all decide
  rw [h, abs_neg, abs_of_nonneg (by norm_num)]
  norm_num

/-- Closed instance of `metersToYards_roundTrip` at 100 m. -/
theorem metersToYards_roundTrip_witness :
    -(6/10) ≤ yardsToMeters ((metersToYards 100 : ℤ) : ℚ) - 100 ∧
      yardsToMeters ((metersToYards 100 : ℤ) : ℚ) - 100 ≤ 6/10 :=
  metersToYards_roundTrip 100 (by with_unfolding_all decide)
    (by with_unfolding_all decide)

/-! ## Shape lemmas for the trigger engine

Each branch of `checkGeofence` can only produce its own constructor; these
lemmas drive every "only when" claim. -/

theorem checkAutoStart_shape (dist : DistanceFn) (p : GeofenceCheckParams)
    (t : GeofenceTrigger) (h : checkAutoStart dist p = Option.some t) :
    ∃ z, t = GeofenceTrigger.auto_start z := by
  unfold checkAutoStart at h
  repeat' split at h
  all_goals simp_all
  exact ⟨_, h.symm⟩

theorem checkCheckIn_shape (dist : DistanceFn) (p : GeofenceCheckParams)
    (t : GeofenceTrigger) (h : checkCheckIn dist p = Option.some t) :
    ∃ z, t = GeofenceTrigger.check_in z := by
  unfold checkCheckIn checkInFallback at h
  repeat' split at h
  all_goals simp_all
  all_goals exact ⟨_, h.symm⟩

theorem checkTeeTimeAlert_shape (dist : DistanceFn) (now : ℚ)
    (p : GeofenceCheckParams) (t : GeofenceTrigger)
    (h : checkTeeTimeAlert dist now p = Option.some t) :
    ∃ z teeTime, p.teeTime = Option.some teeTime ∧
      p.settings.tee_time_alerts = true ∧
      t = GeofenceTrigger.tee_alert z ⌊(teeTime - now) / (1000 * 60)⌋ ∧
      0 < ⌊(teeTime - now) / (1000 * 60)⌋ ∧
      ⌊(teeTime - now) / (1000 * 60)⌋ ≤ 5 := by
  unfold checkTeeTimeAlert teeAlertFallback at h
  repeat' split at h
  all_goals simp_all
  all_goals exact ⟨⟨_, h.2.symm⟩, h.1.1⟩

theorem checkTurnPrompt_shape (dist : DistanceFn) (p : GeofenceCheckParams)
    (t : GeofenceTrigger) (h : checkTurnPrompt dist p = Option.some t) :
    (∃ z, t = GeofenceTrigger.fnb_prompt z TURN_HOLE) ∧
      p.settings.turn_prompt_enabled = true ∧
      p.hasShownFnbPrompt = false ∧
      7 ≤ p.currentHole ∧ p.currentHole ≤ 8 := by
  unfold checkTurnPrompt turnPromptFallback at h
  repeat' split at h
  all_goals simp_all [TURN_HOLE]
  all_goals exact ⟨_, h.symm⟩

theorem getDistanceToGreen_hole8_none (dist : DistanceFn) (lat lng : ℚ) :
    getDistanceToGreen dist lat lng TURN_HOLE = Option.none := rfl

theorem turnPromptFallback_none (dist : DistanceFn) (p : GeofenceCheckParams) :
    turnPromptFallback dist p = Option.none := by
  unfold turnPromptFallback
  simp [isNearGreen, getDistanceToGreen_hole8_none]

theorem checkAutoStart_none_of_no_zone (dist : DistanceFn)
    (p : GeofenceCheckParams)
    (h : p.zones.find? (fun z => z.zone_type == ZoneType.hole_tee
      && z.hole_number == Option.some 1) = Option.none) :
    checkAutoStart dist p = Option.none := by
  unfold checkAutoStart
  rw [h]
  split <;> rfl

theorem checkTurnPrompt_empty_none (dist : DistanceFn) (p : GeofenceCheckParams)
    (hz : p.zones = []) : checkTurnPrompt dist p = Option.none := by
  unfold checkTurnPrompt
  rw [hz]
  simp [turnPromptFallback_none]

theorem checkGeofence_shape (dist : DistanceFn) (now : ℚ)
    (p : GeofenceCheckParams) (t : GeofenceTrigger)
    (h : checkGeofence dist now p = t) :
    t = GeofenceTrigger.none ∨ checkAutoStart dist p = Option.some t ∨
      checkCheckIn dist p = Option.some t ∨
      checkTeeTimeAlert dist now p = Option.some t ∨
      checkTurnPrompt dist p = Option.some t := by
  unfold checkGeofence at h
  repeat' split at h
  all_goals subst h
  all_goals simp_all

/-! ## Trigger-engine theorems -/

/-- C4: with the master switch on, a checked-in player with no round in
progress standing inside the configured hole-1 tee zone gets `auto_start`
carrying that zone (clubhouse containment notwithstanding, since auto-start
is evaluated first); and with no remotely configured hole-1 tee zone the
engine never returns `auto_start` — there is no fallback for it. -/
theorem checkGeofence_auto_start :
    (∀ (dist : DistanceFn) (now : ℚ) (p : GeofenceCheckParams) (z : GeofenceZone),
      p.settings.enabled = true →
      p.isCheckedIn = true →
      p.isRoundInProgress = false →
      p.zones.find? (fun z => z.zone_type == ZoneType.hole_tee
        && z.hole_number == Option.some 1) = Option.some z →
      isWithinGeofence dist p.userLat p.userLng z = true →
      checkGeofence dist now p = GeofenceTrigger.auto_start z) ∧
    (∀ (dist : DistanceFn) (now : ℚ) (p : GeofenceCheckParams),
      p.zones.find? (fun z => z.zone_type == ZoneType.hole_tee
        && z.hole_number == Option.some 1) = Option.none →
      ∀ z, checkGeofence dist now p ≠ GeofenceTrigger.auto_start z) := by
  constructor
  · intro dist now p z hen hci hrp hfind hwin
    have hA : checkAutoStart dist p = Option.some (GeofenceTrigger.auto_start z) := by
      unfold checkAutoStart
      rw [hci, hrp, hfind]
      simp [hwin]
    simp [checkGeofence, hen, hA]
  · intro dist now p hfind z hcontra
    have hA := checkAutoStart_none_of_no_zone dist p hfind
    rcases checkGeofence_shape dist now p _ hcontra with h | h | h | h | h
    · exact absurd h (by simp)
    · rw [hA] at h; exact absurd h (by simp)
    · obtain ⟨z', hz'⟩ := checkCheckIn_shape _ _ _ h
      exact absurd hz' (by simp)
    · obtain ⟨z', tt, _, _, hz', _⟩ := checkTeeTimeAlert_shape _ _ _ _ h
      exact absurd hz' (by simp)
    · obtain ⟨⟨z', hz'⟩, _⟩ := checkTurnPrompt_shape _ _ _ h
      exact absurd hz' (by simp)

/-- Closed instance of `checkGeofence_auto_start`: the concrete player
`pAuto`, inside both the hole-1 tee zone and the clubhouse zone, gets
`auto_start` with the tee zone. -/
theorem checkGeofence_auto_start_witness :
    checkGeofence distZero 0 pAuto = GeofenceTrigger.auto_start teeZoneW :=
  checkGeofence_auto_start.1 distZero 0 pAuto teeZoneW rfl rfl rfl
    (by with_unfolding_all decide) (by with_unfolding_all decide)

/-- C5 counterexample: a tee time 5 min 1 s away gives
`floor(301 s / 60 s) = 5`, inside the `(0, 5]` window, so a player in the
practice-range zone does receive a trigger — the claim said `now + 5m1s`
produces none. -/
theorem checkGeofence_tee_alert_5m1s_triggers :
    checkGeofence distZero 0 (pTee 301000) ≠ GeofenceTrigger.none := by
  with_unfolding_all decide

/-- C5 amended: `tee_alert` is produced only when the whole-minute
countdown `m = floor((teeTime - now) / 60000)` satisfies `0 < m ≤ 5`, and
the trigger carries that `m` (so `m = 0` and `m = 6` never fire); a tee
time 6 min 1 s out produces no trigger, while 5 min 1 s out yields
`tee_alert` with `m = 5` and 4 min 59 s out yields `m = 4` when the player
is inside the practice-range zone. -/
theorem checkGeofence_tee_alert_window :
    (∀ (dist : DistanceFn) (now : ℚ) (p : GeofenceCheckParams)
        (z : GeofenceZone) (m : ℤ),
      checkGeofence dist now p = GeofenceTrigger.tee_alert z m →
      ∃ teeTime, p.teeTime = Option.some teeTime ∧
        m = ⌊(teeTime - now) / (1000 * 60)⌋ ∧ 0 < m ∧ m ≤ 5) ∧
    checkGeofence distZero 0 (pTee 361000) = GeofenceTrigger.none ∧
    checkGeofence distZero 0 (pTee 301000) = GeofenceTrigger.tee_alert rangeZoneW 5 ∧
    checkGeofence distZero 0 (pTee 299000) = GeofenceTrigger.tee_alert rangeZoneW 4 := by
  refine ⟨?_, ?_, ?_, ?_⟩
  · intro dist now p z m h
    rcases checkGeofence_shape dist now p _ h with h' | h' | h' | h' | h'
    · exact absurd h' (by simp)
    · obtain ⟨z', hz'⟩ := checkAutoStart_shape _ _ _ h'
      exact absurd hz' (by simp)
    · obtain ⟨z', hz'⟩ := checkCheckIn_shape _ _ _ h'
      exact absurd hz' (by simp)
    · obtain ⟨z', tt, htt, _, heq, hpos, hle⟩ := checkTeeTimeAlert_shape _ _ _ _ h'
      rw [GeofenceTrigger.tee_alert.injEq] at heq
      exact ⟨tt, htt, heq.2, heq.2 ▸ hpos, heq.2 ▸ hle⟩
    · obtain ⟨⟨z', hz'⟩, _⟩ := checkTurnPrompt_shape _ _ _ h'
      exact absurd hz' (by simp)
  · with_unfolding_all decide
  · with_unfolding_all decide
  · with_unfolding_all decide

/-- Closed instance of `checkGeofence_tee_alert_window`: the only-when
direction applied to the concrete 4 min 59 s evaluation. -/
theorem checkGeofence_tee_alert_window_witness :
    ∃ teeTime, (pTee 299000).teeTime = Option.some teeTime ∧
      (4 : ℤ) = ⌊(teeTime - 0) / (1000 * 60)⌋ ∧ (0 : ℤ) < 4 ∧ (4 : ℤ) ≤ 5 :=
  checkGeofence_tee_alert_window.1 distZero 0 (pTee 299000) rangeZoneW 4
    checkGeofence_tee_alert_window.2.2.2

/-- C6: `fnb_prompt` is produced only when the turn-prompt toggle is on,
the prompt has not been shown this round, and the current hole is 7 or 8;
in particular a player on hole 6 never receives it, wherever they stand. -/
theorem checkGeofence_fnb_window :
    (∀ (dist : DistanceFn) (now : ℚ) (p : GeofenceCheckParams)
        (z : GeofenceZone) (n : ℤ),
      checkGeofence dist now p = GeofenceTrigger.fnb_prompt z n →
      p.settings.turn_prompt_enabled = true ∧ p.hasShownFnbPrompt = false ∧
        (p.currentHole = 7 ∨ p.currentHole = 8)) ∧
    (∀ (dist : DistanceFn) (now : ℚ) (p : GeofenceCheckParams),
      p.currentHole = 6 →
      ∀ z n, checkGeofence dist now p ≠ GeofenceTrigger.fnb_prompt z n) := by
  have key : ∀ (dist : DistanceFn) (now : ℚ) (p : GeofenceCheckParams)
      (z : GeofenceZone) (n : ℤ),
      checkGeofence dist now p = GeofenceTrigger.fnb_prompt z n →
      p.settings.turn_prompt_enabled = true ∧ p.hasShownFnbPrompt = false ∧
        (p.currentHole = 7 ∨ p.currentHole = 8) := by
    intro dist now p z n h
    rcases checkGeofence_shape dist now p _ h with h' | h' | h' | h' | h'
    · exact absurd h' (by simp)
    · obtain ⟨z', hz'⟩ := checkAutoStart_shape _ _ _ h'
      exact absurd hz' (by simp)
    · obtain ⟨z', hz'⟩ := checkCheckIn_shape _ _ _ h'
      exact absurd hz' (by simp)
    · obtain ⟨z', tt, _, _, hz', _⟩ := checkTeeTimeAlert_shape _ _ _ _ h'
      exact absurd hz' (by simp)
    · obtain ⟨_, hen, hshown, h7, h8⟩ := checkTurnPrompt_shape _ _ _ h'
      exact ⟨hen, hshown, by omega⟩
  refine ⟨key, ?_⟩
  intro dist now p h6 z n hcontra
  obtain ⟨_, _, h78⟩ := key dist now p z n hcontra
  omega

/-- Closed instance of `checkGeofence_fnb_window`: the concrete hole-6
player standing on the configured hole-8 green zone gets no prompt. -/
theorem checkGeofence_fnb_window_witness :
    pHole6.currentHole = 6 ∧
      checkGeofence distZero 0 pHole6 ≠ GeofenceTrigger.fnb_prompt green8ZoneW 8 :=
  ⟨rfl, checkGeofence_fnb_window.2 distZero 0 pHole6 rfl green8ZoneW 8⟩

/-- C10: with the shipped course data every hole's green coordinate is the
`(0,0)` placeholder, so `getDistanceToGreen` for hole 8 is `null`,
`isNearGreen` is false for any threshold, and with an empty remote zone
list `checkGeofence` can never return `fnb_prompt` — the fallback branch is
unreachable. -/
theorem checkGeofence_fnb_fallback_unreachable :
    (∀ (dist : DistanceFn) (lat lng : ℚ),
      getDistanceToGreen dist lat lng 8 = Option.none) ∧
    (∀ (dist : DistanceFn) (lat lng : ℚ) (thr : ℤ),
      isNearGreen dist lat lng 8 thr = false) ∧
    (∀ (dist : DistanceFn) (now : ℚ) (p : GeofenceCheckParams),
      p.zones = [] →
      ∀ z n, checkGeofence dist now p ≠ GeofenceTrigger.fnb_prompt z n) := by
  refine ⟨fun dist lat lng => rfl, fun dist lat lng thr => rfl, ?_⟩
  intro dist now p hz z n hcontra
  rcases checkGeofence_shape dist now p _ hcontra with h' | h' | h' | h' | h'
  · exact absurd h' (by simp)
  · obtain ⟨z', hz'⟩ := checkAutoStart_shape _ _ _ h'
    exact absurd hz' (by simp)
  · obtain ⟨z', hz'⟩ := checkCheckIn_shape _ _ _ h'
    exact absurd hz' (by simp)
  · obtain ⟨z', tt, _, _, hz', _⟩ := checkTeeTimeAlert_shape _ _ _ _ h'
    exact absurd hz' (by simp)
  · rw [checkTurnPrompt_empty_none dist p hz] at h'
    exact absurd h' (by simp)

/-- Closed instance of `checkGeofence_fnb_fallback_unreachable` on the
concrete zero-zone player `pEmptyZones` on hole 8. -/
theorem checkGeofence_fnb_fallback_unreachable_witness :
    checkGeofence distZero 0 pEmptyZones ≠ GeofenceTrigger.fnb_prompt green8ZoneW 8 :=
  checkGeofence_fnb_fallback_unreachable.2.2 distZero 0 pEmptyZones rfl green8ZoneW 8

/-! ## Is-active invariance lemmas -/

theorem isWithinGeofence_setActive (dist : DistanceFn) (lat lng : ℚ)
    (f : GeofenceZone → Bool) (z : GeofenceZone) :
    isWithinGeofence dist lat lng (setActive f z) = isWithinGeofence dist lat lng z := rfl

theorem eraseActive_setActive (f : GeofenceZone → Bool) (z : GeofenceZone) :
    eraseActive (setActive f z) = eraseActive z := rfl

theorem find_map_setActive (f : GeofenceZone → Bool) (q : GeofenceZone → Bool)
    (l : List GeofenceZone) (hq : ∀ z, q (setActive f z) = q z) :
    (l.map (setActive f)).find? q = (l.find? q).map (setActive f) := by
  induction l with
  | nil => rfl
  | cons a l ih => by_cases h : q a <;> simp_all [List.find?_cons, hq a]

theorem checkAutoStart_erase (dist : DistanceFn) (f : GeofenceZone → Bool)
    (p : GeofenceCheckParams) :
    (checkAutoStart dist { p with zones := p.zones.map (setActive f) }).map
        eraseTriggerActive
      = (checkAutoStart dist p).map eraseTriggerActive := by
  unfold checkAutoStart
  rw [find_map_setActive f (fun z => z.zone_type == ZoneType.hole_tee
    && z.hole_number == Option.some 1) p.zones (fun z => rfl)]
  cases h : p.zones.find? (fun z => z.zone_type == ZoneType.hole_tee
      && z.hole_number == Option.some 1) with
  | none => rfl
  | some z =>
    by_cases hc : p.isCheckedIn && !p.isRoundInProgress
    · by_cases hw : isWithinGeofence dist p.userLat p.userLng z
      · simp [hc, hw, isWithinGeofence_setActive, eraseTriggerActive, eraseActive_setActive]
      · simp [hc, hw, isWithinGeofence_setActive]
    · simp [hc]

theorem checkInFallback_erase (dist : DistanceFn) (f : GeofenceZone → Bool)
    (p : GeofenceCheckParams) :
    checkInFallback dist { p with zones := p.zones.map (setActive f) }
      = checkInFallback dist p := by
  unfold checkInFallback
  simp [List.length_map]

theorem checkCheckIn_erase (dist : DistanceFn) (f : GeofenceZone → Bool)
    (p : GeofenceCheckParams) :
    (checkCheckIn dist { p with zones := p.zones.map (setActive f) }).map
        eraseTriggerActive
      = (checkCheckIn dist p).map eraseTriggerActive := by
  unfold checkCheckIn
  rw [find_map_setActive f (fun z => z.zone_type == ZoneType.clubhouse)
    p.zones (fun z => rfl)]
  cases h : p.zones.find? (fun z => z.zone_type == ZoneType.clubhouse) with
  | none =>
    by_cases hc : p.settings.check_in_enabled && !p.isCheckedIn <;>
      simp [hc, checkInFallback_erase]
  | some z =>
    by_cases hc : p.settings.check_in_enabled && !p.isCheckedIn
    · by_cases hw : isWithinGeofence dist p.userLat p.userLng z
      · simp [hc, hw, isWithinGeofence_setActive, eraseTriggerActive, eraseActive_setActive]
      · simp [hc, hw, isWithinGeofence_setActive, checkInFallback_erase]
    · simp [hc]

theorem teeAlertFallback_congr (dist : DistanceFn) {q : GeofenceCheckParams}
    (p : GeofenceCheckParams) (m : ℤ) (h1 : q.zones.length = p.zones.length)
    (h2 : q.userLat = p.userLat) (h3 : q.userLng = p.userLng) :
    teeAlertFallback dist q m = teeAlertFallback dist p m := by
  unfold teeAlertFallback
  rw [h1, h2, h3]

theorem checkTeeTimeAlert_erase (dist : DistanceFn) (now : ℚ)
    (f : GeofenceZone → Bool) (p : GeofenceCheckParams) :
    (checkTeeTimeAlert dist now { p with zones := p.zones.map (setActive f) }).map
        eraseTriggerActive
      = (checkTeeTimeAlert dist now p).map eraseTriggerActive := by
  unfold checkTeeTimeAlert
  rw [find_map_setActive f (fun z => z.zone_type == ZoneType.range)
    p.zones (fun z => rfl)]
  by_cases he : p.settings.tee_time_alerts
  · cases ht : p.teeTime with
    | none => simp [he]
    | some teeTime =>
      have hfb : teeAlertFallback dist
          { userLat := p.userLat, userLng := p.userLng, teeTime := Option.some teeTime,
            isCheckedIn := p.isCheckedIn, isRoundInProgress := p.isRoundInProgress,
            currentHole := p.currentHole, hasShownFnbPrompt := p.hasShownFnbPrompt,
            zones := List.map (setActive f) p.zones, settings := p.settings }
          ⌊(teeTime - now) / (1000 * 60)⌋
          = teeAlertFallback dist p ⌊(teeTime - now) / (1000 * 60)⌋ :=
        teeAlertFallback_congr dist p _ (by simp) rfl rfl
      by_cases hm : (⌊(teeTime - now) / (1000 * 60)⌋ ≤ TEE_TIME_ALERT_MINUTES
          ∧ ⌊(teeTime - now) / (1000 * 60)⌋ > 0)
      · cases h : p.zones.find? (fun z => z.zone_type == ZoneType.range) with
        | none => simp [he, ht, hm, hfb]
        | some z =>
          by_cases hw : isWithinGeofence dist p.userLat p.userLng z
          · simp [he, ht, hm, hw, isWithinGeofence_setActive,
              eraseTriggerActive, eraseActive_setActive]
          · simp [he, ht, hm, hw, isWithinGeofence_setActive, hfb]
      · simp [he, ht, hm]
  · simp [he]

theorem checkTurnPrompt_erase (dist : DistanceFn) (f : GeofenceZone → Bool)
    (p : GeofenceCheckParams) :
    (checkTurnPrompt dist { p with zones := p.zones.map (setActive f) }).map
        eraseTriggerActive
      = (checkTurnPrompt dist p).map eraseTriggerActive := by
  unfold checkTurnPrompt
  rw [find_map_setActive f (fun z => z.zone_type == ZoneType.hole_green
    && z.hole_number == Option.some TURN_HOLE) p.zones (fun z => rfl)]
  simp only [turnPromptFallback_none]
  cases h : p.zones.find? (fun z => z.zone_type == ZoneType.hole_green
      && z.hole_number == Option.some TURN_HOLE) with
  | none => simp
  | some z =>
    split_ifs <;>
      simp_all [isWithinGeofence_setActive, eraseTriggerActive, eraseActive_setActive]

/-- C9 counterexample: two inputs that agree except for the `is_active`
flag of the hole-1 tee zone (their zone lists coincide after `eraseActive`)
produce unequal triggers — both are `auto_start`, but each carries its own
copy of the zone, flag included. -/
theorem checkGeofence_is_active_carried :
    (pAuto.zones.map (setActive fun _ => true)).map eraseActive
        = pAuto.zones.map eraseActive ∧
      checkGeofence distZero 0
          { pAuto with zones := pAuto.zones.map (setActive fun _ => true) }
        ≠ checkGeofence distZero 0 pAuto := by
  constructor
  · with_unfolding_all decide
  · with_unfolding_all decide

/-- C9 amended: the trigger engine never reads `is_active` — rewriting the
flag of every remote zone arbitrarily changes nothing in the result beyond
the flag copied into the carried zone, so a zone marked inactive can still
produce `check_in`, `tee_alert`, `fnb_prompt`, or `auto_start`. -/
theorem checkGeofence_is_active_invariant :
    ∀ (dist : DistanceFn) (now : ℚ) (p : GeofenceCheckParams)
      (f : GeofenceZone → Bool),
      eraseTriggerActive (checkGeofence dist now
          { p with zones := p.zones.map (setActive f) })
        = eraseTriggerActive (checkGeofence dist now p) := by
  intro dist now p f
  have h1 := checkAutoStart_erase dist f p
  have h2 := checkCheckIn_erase dist f p
  have h3 := checkTeeTimeAlert_erase dist now f p
  have h4 := checkTurnPrompt_erase dist f p
  unfold checkGeofence
  by_cases hen : p.settings.enabled
  · simp only [hen]
    cases hA' : checkAutoStart dist { p with zones := p.zones.map (setActive f) } with
    | some t' =>
      cases hA : checkAutoStart dist p with
      | some t => rw [hA', hA] at h1; simpa using h1
      | none => rw [hA', hA] at h1; simp at h1
    | none =>
      cases hA : checkAutoStart dist p with
      | some t => rw [hA', hA] at h1; simp at h1
      | none =>
        cases hB' : checkCheckIn dist { p with zones := p.zones.map (setActive f) } with
        | some t' =>
          cases hB : checkCheckIn dist p with
          | some t => rw [hB', hB] at h2; simpa using h2
          | none => rw [hB', hB] at h2; simp at h2
        | none =>
          cases hB : checkCheckIn dist p with
          | some t => rw [hB', hB] at h2; simp at h2
          | none =>
            cases hC' : checkTeeTimeAlert dist now
                { p with zones := p.zones.map (setActive f) } with
            | some t' =>
              cases hC : checkTeeTimeAlert dist now p with
              | some t => rw [hC', hC] at h3; simpa using h3
              | none => rw [hC', hC] at h3; simp at h3
            | none =>
              cases hC : checkTeeTimeAlert dist now p with
              | some t => rw [hC', hC] at h3; simp at h3
              | none =>
                cases hD' : checkTurnPrompt dist
                    { p with zones := p.zones.map (setActive f) } with
                | some t' =>
                  cases hD : checkTurnPrompt dist p with
                  | some t => rw [hD', hD] at h4; simpa using h4
                  | none => rw [hD', hD] at h4; simp at h4
                | none =>
                  cases hD : checkTurnPrompt dist p with
                  | some t => rw [hD', hD] at h4; simp at h4
                  | none => rfl
  · simp [hen]

/-- Closed instance of `checkGeofence_is_active_invariant` on the concrete
auto-start scenario with every flag forced to `true`. -/
theorem checkGeofence_is_active_invariant_witness :
    eraseTriggerActive (checkGeofence distZero 0
        { pAuto with zones := pAuto.zones.map (setActive fun _ => true) })
      = eraseTriggerActive (checkGeofence distZero 0 pAuto) :=
  checkGeofence_is_active_invariant distZero 0 pAuto (fun _ => true)

end FoxCreek
